import Mathlib

/-!
Shallow embedding of the world-layout resolver of `src/world.rs` and the error
taxonomy of `src/error.rs` of the rs-tiled repository, together with theorems
settling the frozen claims about this code.

Paths are modelled as strings; `u32` values as `Nat` (with a `< 2^32` bound
where it matters) and `i32` values as `Int` (checked arithmetic is explicit).
External collaborators (the regex crate, the filesystem, serde, the
`ResourceReader`, the XML map parser) are modelled as deterministic functions
gathered in a `WorldEnv` record.
-/

deriving instance DecidableEq for Except

namespace Tiled

/-- Model of Rust `std::num::IntErrorKind` (the cases `<i32 as FromStr>` produces). -/
inductive IntErrorKind where
  | Empty
  | InvalidDigit
  | PosOverflow
  | NegOverflow
  deriving DecidableEq, Repr

/-- Model of Rust `std::num::ParseIntError`, identified by its kind. -/
structure ParseIntError where
  kind : IntErrorKind
  deriving DecidableEq, Repr

/-- Numeric value of a list of decimal digit characters; `none` if the list is
empty or holds a non-digit (mirrors the digit loop of Rust integer `from_str`). -/
def parseDigits (cs : List Char) : Option Nat :=
  if cs = [] then none
  else if cs.all (fun c => c.isDigit) then
    some (cs.foldl (fun a c => a * 10 + (c.toNat - 48)) 0)
  else none

/-- Model of Rust `str::parse::<i32>` (`<i32 as FromStr>::from_str`): optional
sign, then decimal digits, rejecting values outside the `i32` range. -/
def parseI32 (s : String) : Except ParseIntError Int :=
  match s.data with
  | [] => .error ⟨IntErrorKind.Empty⟩
  | c :: rest =>
    let signed : Bool × List Char :=
      if c = '-' then (true, rest)
      else if c = '+' then (false, rest)
      else (false, c :: rest)
    match parseDigits signed.2 with
    | none => .error ⟨IntErrorKind.InvalidDigit⟩
    | some n =>
      if signed.1 then
        if (n : Int) ≤ 2147483648 then .ok (-(n : Int))
        else .error ⟨IntErrorKind.NegOverflow⟩
      else
        if (n : Int) ≤ 2147483647 then .ok (n : Int)
        else .error ⟨IntErrorKind.PosOverflow⟩

/-- The `i32` range. -/
def inI32 (n : Int) : Prop :=
  -2147483648 ≤ n ∧ n ≤ 2147483647

instance (n : Int) : Decidable (inI32 n) := by
  unfold inI32
  infer_instance

/-- Model of Rust `i32::checked_mul` (on operands that are valid `i32` values). -/
def checkedMul (a b : Int) : Option Int :=
  if inI32 (a * b) then some (a * b) else none

/-- Model of Rust `i32::checked_add` (on operands that are valid `i32` values). -/
def checkedAdd (a b : Int) : Option Int :=
  if inI32 (a + b) then some (a + b) else none

/-- Model of the Rust cast `u32 as i32`: two's-complement reinterpretation. -/
def u32AsI32 (v : Nat) : Int :=
  if v < 2147483648 then (v : Int) else (v : Int) - 4294967296

/-- Model of `std::io::Error` (external), identified by its kind. -/
structure IoError where
  kind : String
  deriving DecidableEq, Repr

/-- Model of `serde_json::Error` (external). -/
structure JsonError where
  msg : String
  deriving DecidableEq, Repr

/-- Model of `base64::DecodeError` (external). -/
structure Base64Error where
  msg : String
  deriving DecidableEq, Repr

/-- Model of `xml::reader::Error` (external). -/
structure XmlError where
  msg : String
  deriving DecidableEq, Repr

/-- The `CsvDecodingError` enum of `error.rs` (lines 8-11). -/
inductive CsvDecodingError where
  | TileDataParseError (e : ParseIntError)
  deriving DecidableEq, Repr

/-- The `InvalidTilesetError` enum of `error.rs` (lines 26-29). -/
inductive InvalidTilesetError where
  | InvalidTileDimensions
  deriving DecidableEq, Repr

/-- Model of `Box<dyn std::error::Error + Send + Sync>`: the concrete error
values which `error.rs`/`world.rs` box (io errors, int-parse errors, `&str`
messages via `.into()`, base64 and xml errors). -/
inductive DynError where
  | ioError (e : IoError)
  | parseIntError (e : ParseIntError)
  | strError (s : String)
  | base64Error (e : Base64Error)
  | xmlError (e : XmlError)
  deriving DecidableEq, Repr

/-- The `Error` enum of `error.rs` (lines 47-116). -/
inductive Error where
  | MalformedAttributes (s : String)
  | DecompressingError (e : IoError)
  | Base64DecodingError (e : Base64Error)
  | CsvDecodingError (e : Tiled.CsvDecodingError)
  | XmlDecodingError (e : XmlError)
  | JsonDecodingError (e : JsonError)
  | CapturesNotFound
  | PrematureEnd (s : String)
  | PathIsNotFile
  | ResourceLoadingError (path : String) (err : DynError)
  | InvalidTileFound
  | InvalidEncodingFormat (encoding : Option String) (compression : Option String)
  | InvalidPropertyValue (description : String)
  | UnknownPropertyType (type_name : String)
  | TemplateHasNoObject
  | InvalidWangIdEncoding (read_string : String)
  | InvalidObjectData (description : String)
  | InvalidTileset (e : InvalidTilesetError)
  deriving DecidableEq, Repr

/-- The `source` method of `impl std::error::Error for Error` (`error.rs` lines 175-185). -/
def Error.source : Error → Option DynError
  | .DecompressingError e => some (.ioError e)
  | .Base64DecodingError e => some (.base64Error e)
  | .XmlDecodingError e => some (.xmlError e)
  | .ResourceLoadingError _ err => some err
  | _ => none

/-- Model of the external `regex` crate: a compiled regex is abstracted by its
capture behavior. `captures s` is `none` when the regex does not match `s`,
otherwise the list of capture groups (index 0 is the whole match, index `i`
the `i`-th group, `none` for a non-participating group). -/
structure Regex where
  captures : String → Option (List (Option String))

/-- Model of `Regex::is_match`: it agrees with `captures` (regex crate contract). -/
def Regex.is_match (re : Regex) (s : String) : Bool :=
  (re.captures s).isSome

/-- Model of `Captures::get` of the regex crate. -/
def capturesGet (caps : List (Option String)) (i : Nat) : Option String :=
  caps.getD i none

/-- Model of `OsStr`: `str?` is `some` exactly for valid UTF-8 names
(`OsStr::to_str`). -/
structure OsName where
  str? : Option String
  deriving DecidableEq, Repr

/-- Model of `std::fs::DirEntry`: `fileName?` models `entry.path().file_name()`. -/
structure DirEntry where
  fileName? : Option OsName
  deriving DecidableEq, Repr

/-- Modelled from the spec: the in-memory map object produced by the XML map
parser (`crate::parse::xml::parse_map`), which lives outside the world module;
the world-layout code never inspects its contents, so it is abstracted to an
identifier. -/
structure Map where
  id : Nat
  deriving DecidableEq, Repr

/-- The `WorldMap` struct of `world.rs` (lines 26-42). -/
structure WorldMap where
  filename : String
  map : Option Map
  x : Int
  y : Int
  width : Option Nat
  height : Option Nat
  deriving DecidableEq, Repr

/-- The `WorldPattern` struct of `world.rs` (lines 45-61): the multipliers are
`u32`, the offsets `i32`. -/
structure WorldPattern where
  regexp : String
  multiplier_x : Nat
  multiplier_y : Nat
  offset_x : Int
  offset_y : Int
  deriving DecidableEq, Repr

/-- A `WorldMap` as serde deserializes it: the `map` field is
`#[serde(skip_deserializing)]`, hence absent from the JSON form. -/
structure WorldMapDesc where
  filename : String
  x : Int
  y : Int
  width : Option Nat
  height : Option Nat
  deriving DecidableEq, Repr

/-- serde fills the skipped `map` field with its default, `None`. -/
def WorldMapDesc.toWorldMap (d : WorldMapDesc) : WorldMap :=
  { filename := d.filename, map := none, x := d.x, y := d.y,
    width := d.width, height := d.height }

/-- The JSON-visible fields of `World` (`source` is `#[serde(skip_deserializing)]`). -/
structure WorldDescriptor where
  maps : Option (List WorldMapDesc)
  patterns : Option (List WorldPattern)
  world_type : Option String
  deriving DecidableEq, Repr

/-- The `World` struct of `world.rs` (lines 11-23). -/
structure World where
  source : String
  maps : Option (List WorldMap)
  patterns : Option (List WorldPattern)
  world_type : Option String
  deriving DecidableEq, Repr

/-- Model of serde deserialization of `World`: skipped fields take their
defaults (`source` is the default empty `PathBuf`, every `WorldMap.map` is
`None`). -/
def WorldDescriptor.toWorld (d : WorldDescriptor) : World :=
  { source := "",
    maps := d.maps.map (fun l => l.map WorldMapDesc.toWorldMap),
    patterns := d.patterns,
    world_type := d.world_type }

/-- The external collaborators of `parse_world`/`parse_world_pattern`, each
modelled as a deterministic function: the regex compiler (`Regex::new`, `none`
for a syntactically invalid pattern), `Path::parent`, `fs::read_dir` (a list of
entry results, as Rust yields `io::Result<DirEntry>` items), the
`ResourceReader::read_from` byte source, `read_to_string` on that source,
`serde_json::from_str::<World>`, `Path::with_file_name`, and the XML map
parser `crate::parse::xml::parse_map`. -/
structure WorldEnv where
  compile : String → Option Regex
  parent? : String → Option String
  readDir : String → Except IoError (List (Except IoError DirEntry))
  readFrom : String → Except DynError Unit
  readToString : String → Except IoError String
  fromJsonWorld : String → Except JsonError WorldDescriptor
  withFileName : String → String → String
  parseMap : String → Except Error Map

/-- Outcome of running Rust code that may panic (through `unwrap`). -/
inductive PanicOr (α : Type) where
  | panicked (msg : String)
  | value (a : α)
  deriving DecidableEq, Repr

/-- The filter predicate of `world.rs` line 141:
`re.is_match(entry.path().file_name().unwrap().to_str().unwrap())`. -/
def filterEntry (re : Regex) (entry : DirEntry) : PanicOr Bool :=
  match entry.fileName? with
  | none => .panicked "called Option::unwrap() on a None value"
  | some os =>
    match os.str? with
    | none => .panicked "called Option::unwrap() on a None value"
    | some name => .value (re.is_match name)

/-- Lines 159-215 of `world.rs` (the part of the map closure after the captures
are unwrapped): take capture groups 1 and 2, parse each as `i32`, and compute
the placement with checked arithmetic on the `as i32`-cast multipliers; on
success build the `WorldMap` with `width`/`height` set from the multipliers. -/
def computePlacement (path : String) (p : WorldPattern) (filename : String)
    (caps : List (Option String)) : Except Error WorldMap :=
  match capturesGet caps 1 with
  | none => .error (Error.ResourceLoadingError path
      (DynError.strError ("Failed to parse x pattern from file " ++ filename)))
  | some xs =>
    match parseI32 xs with
    | .error e => .error (Error.ResourceLoadingError path (DynError.parseIntError e))
    | .ok xv =>
      match (checkedMul xv (u32AsI32 p.multiplier_x)).bind
          (fun x => checkedAdd x p.offset_x) with
      | none => .error (Error.ResourceLoadingError path
          (DynError.strError "Arithmetic Overflow on multiplierX and offsetX"))
      | some x =>
        match capturesGet caps 2 with
        | none => .error (Error.ResourceLoadingError path
            (DynError.strError ("Failed to parse y pattern from file " ++ filename)))
        | some ys =>
          match parseI32 ys with
          | .error e => .error (Error.ResourceLoadingError path (DynError.parseIntError e))
          | .ok yv =>
            match (checkedMul yv (u32AsI32 p.multiplier_y)).bind
                (fun y => checkedAdd y p.offset_y) with
            | none => .error (Error.ResourceLoadingError path
                (DynError.strError "Arithmetic Overflow on multiplierY and offsetY"))
            | some y =>
              .ok { filename := filename, map := none, x := x, y := y,
                    width := some p.multiplier_x,
                    height := some p.multiplier_y }

/-- The map closure of `world.rs` lines 142-216: recover the UTF-8 file name,
unwrap the captures (`world.rs` line 157), then `computePlacement`. -/
def mapEntry (path : String) (p : WorldPattern) (re : Regex) (entry : DirEntry) :
    PanicOr (Except Error WorldMap) :=
  match entry.fileName? with
  | none => .value (.error (Error.ResourceLoadingError path
      (DynError.strError "Failed to get file name")))
  | some os =>
    match os.str? with
    | none => .value (.error (Error.ResourceLoadingError path
        (DynError.strError "Failed to convert file name to string")))
    | some filename =>
      match re.captures filename with
      | none => .panicked "called Option::unwrap() on a None value"
      | some caps => .value (computePlacement path p filename caps)

/-- One pattern's `filter(..).map(..).collect::<Vec<_>>()` over the directory
entries (`world.rs` lines 139-217): entries that are io errors are dropped by
`filter_map(|entry| entry.ok())`; each kept entry flows through the filter
predicate and the map closure in order, so a panic in either aborts there; a
per-entry `Err` result is collected and iteration continues. -/
def patternResults (path : String) (p : WorldPattern) (re : Regex) :
    List (Except IoError DirEntry) → PanicOr (List (Except Error WorldMap))
  | [] => .value []
  | .error _ :: es => patternResults path p re es
  | .ok entry :: es =>
    match filterEntry re entry with
    | .panicked msg => .panicked msg
    | .value false => patternResults path p re es
    | .value true =>
      match mapEntry path p re entry with
      | .panicked msg => .panicked msg
      | .value r =>
        match patternResults path p re es with
        | .panicked msg => .panicked msg
        | .value rs => .value (r :: rs)

/-- The push loop of `world.rs` lines 219-221: `for file in files { maps.push(file?); }`. -/
def pushResults (acc : List WorldMap) :
    List (Except Error WorldMap) → Except Error (List WorldMap)
  | [] => .ok acc
  | .error e :: _ => .error e
  | .ok m :: rest => pushResults (acc ++ [m]) rest

/-- The per-pattern loop of `world.rs` lines 132-222: re-read the directory,
compile the pattern's regex (`unwrap`: panics on an invalid pattern), collect
this pattern's per-entry results and push them onto the accumulated maps,
propagating the first `Err`. -/
def patternLoop (env : WorldEnv) (path parentDir : String) (acc : List WorldMap) :
    List WorldPattern → PanicOr (Except Error (List WorldMap))
  | [] => .value (.ok acc)
  | p :: ps =>
    match env.readDir parentDir with
    | .error e => .value (.error (Error.ResourceLoadingError parentDir (DynError.ioError e)))
    | .ok entries =>
      match env.compile p.regexp with
      | none => .panicked "called Result::unwrap() on an Err value"
      | some re =>
        match patternResults path p re entries with
        | .panicked msg => .panicked msg
        | .value results =>
          match pushResults acc results with
          | .error e => .value (.error e)
          | .ok acc2 => patternLoop env path parentDir acc2 ps

/-- The function `parse_world_pattern` of `world.rs` lines 123-225. -/
def parse_world_pattern (env : WorldEnv) (path : String) (patterns : List WorldPattern) :
    PanicOr (Except Error (List WorldMap)) :=
  match env.parent? path with
  | none => .value (.error (Error.ResourceLoadingError path (DynError.ioError ⟨"NotFound"⟩)))
  | some parentDir => patternLoop env path parentDir [] patterns

/-- The body of the `load_maps` loop of `world.rs` lines 112-115: parse each
listed map (path built with `with_file_name`) and store it in the `map` field,
propagating the first parse error. -/
def loadMaps (env : WorldEnv) (worldPath : String) :
    List WorldMap → Except Error (List WorldMap)
  | [] => .ok []
  | m :: ms =>
    match env.parseMap (env.withFileName worldPath m.filename) with
    | .error e => .error e
    | .ok mp =>
      match loadMaps env worldPath ms with
      | .error e => .error e
      | .ok rest => .ok ({ m with map := some mp } :: rest)

/-- Lines 110-117 of `world.rs`: when `load_maps` is set and maps are present,
materialize each map. -/
def loadStep (env : WorldEnv) (worldPath : String) (load_maps : Bool) (w : World) :
    Except Error World :=
  if load_maps then
    match w.maps with
    | some ms =>
      match loadMaps env worldPath ms with
      | .error e => .error e
      | .ok ms2 => .ok { w with maps := some ms2 }
    | none => .ok w
  else .ok w

/-- The function `parse_world` of `world.rs` lines 79-120. -/
def parse_world (env : WorldEnv) (world_path : String) (load_maps : Bool) :
    PanicOr (Except Error World) :=
  match env.readFrom world_path with
  | .error e => .value (.error (Error.ResourceLoadingError world_path e))
  | .ok _ =>
    match env.readToString world_path with
    | .error e => .value (.error (Error.ResourceLoadingError world_path (DynError.ioError e)))
    | .ok world_string =>
      match env.fromJsonWorld world_string with
      | .error e => .value (.error (Error.JsonDecodingError e))
      | .ok d =>
        match d.toWorld.patterns with
        | some pats =>
          match parse_world_pattern env world_path pats with
          | .panicked msg => .panicked msg
          | .value (.error e) => .value (.error e)
          | .value (.ok maps) =>
            .value (loadStep env world_path load_maps { d.toWorld with maps := some maps })
        | none => .value (loadStep env world_path load_maps d.toWorld)

/-- First `Err` payload in a list of per-candidate results. -/
def firstError : List (Except Error WorldMap) → Option Error
  | [] => none
  | .error e :: _ => some e
  | .ok _ :: rest => firstError rest

/-- All pattern regexes compile and every directory entry that
`parse_world_pattern` would see has a present, valid-UTF-8 file name. -/
def NoPanicInputs (env : WorldEnv) (path : String) (patterns : List WorldPattern) : Prop :=
  (∀ p ∈ patterns, (env.compile p.regexp).isSome = true) ∧
  (∀ parentDir, env.parent? path = some parentDir →
    ∀ entries, env.readDir parentDir = .ok entries →
      ∀ d : DirEntry, Except.ok d ∈ entries → ∃ s, d.fileName? = some ⟨some s⟩)

/-! ### Concrete instances used by the example-level theorems

The concrete `Regex` values below model the regex crate's compiled regexes for
the written pattern strings, tabulated on the finitely many file names that the
concrete directories contain; each capture list is exactly what the regex crate
returns on that haystack. -/

/-- The pattern string `map_(\d+)_(\d+)\.tmx` as written in a world file. -/
def rxStr : String := "map_(\\d+)_(\\d+)\\.tmx"

/-- The pattern string `map_(-?\d+)_(\d+)\.tmx`. -/
def rxNegStr : String := "map_(-?\\d+)_(\\d+)\\.tmx"

/-- Model of the compiled regex for `map_(\d+)_(\d+)\.tmx`, tabulated on the
file names used in the concrete examples. -/
def reMapXY : Regex :=
  { captures := fun s =>
      if s = "map_1_2.tmx" then some [some "map_1_2.tmx", some "1", some "2"]
      else if s = "map_1_1.tmx" then some [some "map_1_1.tmx", some "1", some "1"]
      else if s = "map_2_3.tmx" then some [some "map_2_3.tmx", some "2", some "3"]
      else if s = "map_9999999999_1.tmx" then
        some [some "map_9999999999_1.tmx", some "9999999999", some "1"]
      else if s = "map_30000000_1.tmx" then
        some [some "map_30000000_1.tmx", some "30000000", some "1"]
      else if s = "map_5_1.tmx" then some [some "map_5_1.tmx", some "5", some "1"]
      else none }

/-- Model of the compiled regex for `map_(-?\d+)_(\d+)\.tmx`, tabulated on the
file names used in the concrete examples. -/
def reMapNegXY : Regex :=
  { captures := fun s =>
      if s = "map_-1_2.tmx" then some [some "map_-1_2.tmx", some "-1", some "2"]
      else none }

/-- Model of `Regex::new` restricted to the two pattern strings above. -/
def stdCompile : String → Option Regex := fun s =>
  if s = rxStr then some reMapXY
  else if s = rxNegStr then some reMapNegXY
  else none

/-- A directory entry with the given UTF-8 file name. -/
def entryOf (s : String) : DirEntry := { fileName? := some { str? := some s } }

/-- A directory listing of well-formed entries with the given file names. -/
def dirOf (names : List String) : List (Except IoError DirEntry) :=
  names.map (fun s => .ok (entryOf s))

/-- A concrete environment: parent directory `"w"`, a fixed directory listing,
reads succeed, JSON decoding unused. -/
def envOf (compile : String → Option Regex) (names : List String) : WorldEnv :=
  { compile := compile,
    parent? := fun _ => some "w",
    readDir := fun _ => .ok (dirOf names),
    readFrom := fun _ => .ok (),
    readToString := fun _ => .ok "",
    fromJsonWorld := fun _ => .error ⟨"unused"⟩,
    withFileName := fun _ f => f,
    parseMap := fun _ => .error Error.TemplateHasNoObject }

/-- The spec's example pattern: multipliers 100, offsets 0. -/
def pat100 : WorldPattern :=
  { regexp := rxStr, multiplier_x := 100, multiplier_y := 100, offset_x := 0, offset_y := 0 }

/-- A second pattern with the same regexp, different placement parameters. -/
def patAlt : WorldPattern :=
  { regexp := rxStr, multiplier_x := 1, multiplier_y := 1, offset_x := 5, offset_y := 5 }

/-- A pattern whose `multiplier_x` is `u32::MAX`, above `i32::MAX`. -/
def patUMax : WorldPattern :=
  { regexp := rxStr, multiplier_x := 4294967295, multiplier_y := 1, offset_x := 0, offset_y := 0 }

/-- A pattern whose `multiplier_x` is `2^31`, just above `i32::MAX`. -/
def patTwo31 : WorldPattern :=
  { regexp := rxNegStr, multiplier_x := 2147483648, multiplier_y := 1,
    offset_x := 0, offset_y := 0 }

/-- A pattern whose `multiplier_x` is `2^32 - 100` (reinterpreted as `-100`)
and whose `multiplier_y` is `2^32 - 7` (reinterpreted as `-7`). -/
def patWrap : WorldPattern :=
  { regexp := rxStr, multiplier_x := 4294967196, multiplier_y := 4294967289,
    offset_x := 0, offset_y := 0 }

/-- The spec's overflow example: `multiplierX = 100000`. -/
def patOvf : WorldPattern :=
  { regexp := rxStr, multiplier_x := 100000, multiplier_y := 1, offset_x := 0, offset_y := 0 }

/-- Directory holding only `map_1_2.tmx`. -/
def envA : WorldEnv := envOf stdCompile ["map_1_2.tmx"]

/-- Directory holding only `map_1_1.tmx`. -/
def envB : WorldEnv := envOf stdCompile ["map_1_1.tmx"]

/-- Directory holding a candidate with an overflowing capture, then a good one. -/
def envC : WorldEnv := envOf stdCompile ["map_9999999999_1.tmx", "map_1_1.tmx"]

/-- Directory holding only `map_-1_2.tmx`. -/
def envNeg : WorldEnv := envOf stdCompile ["map_-1_2.tmx"]

/-- Environment whose regex compiler rejects every pattern string. -/
def envBadRegex : WorldEnv := envOf (fun _ => none) ["map_1_2.tmx"]

/-- Environment whose single directory entry has a non-UTF-8 file name. -/
def envBadName : WorldEnv :=
  { envOf stdCompile [] with
    readDir := fun _ => .ok [.ok { fileName? := some { str? := none } }] }

/-- Environment for `parse_world` examples: the world file reads as `"{}"` and
decodes to an empty descriptor. -/
def envJsonEmpty : WorldEnv :=
  { envOf stdCompile [] with
    readToString := fun _ => .ok "{}",
    fromJsonWorld := fun s =>
      if s = "{}" then .ok { maps := none, patterns := none, world_type := none }
      else .error ⟨"bad json"⟩ }

/-- An explicit world-map entry as it would be deserialized. -/
def mdExp : WorldMapDesc := { filename := "a.tmx", x := 7, y := 8, width := none, height := none }

/-- Descriptor holding both an explicit maps list and a patterns list. -/
def descBoth : WorldDescriptor :=
  { maps := some [mdExp], patterns := some [pat100], world_type := none }

/-- Environment for `parse_world` whose world file decodes to `descBoth` and
whose directory holds `map_1_2.tmx`. -/
def envBoth : WorldEnv :=
  { envOf stdCompile ["map_1_2.tmx"] with
    readToString := fun _ => .ok "both",
    fromJsonWorld := fun s => if s = "both" then .ok descBoth else .error ⟨"bad json"⟩ }

/-- Environment whose byte source fails with a permission error. -/
def envDenied : WorldEnv :=
  { envOf stdCompile [] with
    readFrom := fun _ => .error (.ioError ⟨"PermissionDenied"⟩) }

/-- Environment with no parent directory and failing JSON decode; used to
witness the panic-free amended claim. -/
def envNoParent : WorldEnv :=
  { envOf (fun _ => none) [] with parent? := fun _ => none }

/-- Descriptor holding only an explicit maps list (no patterns). -/
def descMapsOnly : WorldDescriptor :=
  { maps := some [mdExp], patterns := none, world_type := some "t" }

/-- Environment for `parse_world` whose world file decodes to `descMapsOnly`. -/
def envMapsOnly : WorldEnv :=
  { envOf stdCompile [] with
    readToString := fun _ => .ok "m",
    fromJsonWorld := fun s => if s = "m" then .ok descMapsOnly else .error ⟨"bad json"⟩ }

/-- The `WorldMap` that `map_1_2.tmx` yields under `pat100`. -/
def m12 : WorldMap :=
  { filename := "map_1_2.tmx", map := none, x := 100, y := 200,
    width := some 100, height := some 100 }

/-- The `WorldMap` that `map_1_1.tmx` yields under `pat100`. -/
def m11a : WorldMap :=
  { filename := "map_1_1.tmx", map := none, x := 100, y := 100,
    width := some 100, height := some 100 }

/-- The `WorldMap` that `map_1_1.tmx` yields under `patAlt`. -/
def m11b : WorldMap :=
  { filename := "map_1_1.tmx", map := none, x := 6, y := 6,
    width := some 1, height := some 1 }

/-- The `WorldMap` that `map_1_2.tmx` yields under `patUMax` (wrapped x). -/
def mWrapped : WorldMap :=
  { filename := "map_1_2.tmx", map := none, x := -1, y := 2,
    width := some 4294967295, height := some 1 }

/-- The `WorldMap` that `map_5_1.tmx` yields under `patWrap` (x and y computed
with the reinterpreted multipliers `-100` and `-7`). -/
def mWrap : WorldMap :=
  { filename := "map_5_1.tmx", map := none, x := -500, y := -7,
    width := some 4294967196, height := some 4294967289 }

/-! ### Helper lemmas -/

theorem u32AsI32_of_le (v : Nat) (h : v ≤ 2147483647) : u32AsI32 v = (v : Int) := by
  unfold u32AsI32
  split <;> omega

theorem u32AsI32_of_gt (v : Nat) (h : 2147483647 < v) :
    u32AsI32 v = (v : Int) - 4294967296 := by
  unfold u32AsI32
  split <;> omega

theorem checkedMul_of_inI32 {a b : Int} (h : inI32 (a * b)) :
    checkedMul a b = some (a * b) := by
  unfold checkedMul
  rw [if_pos h]

theorem checkedMul_of_overflow {a b : Int} (h : ¬ inI32 (a * b)) :
    checkedMul a b = none := by
  unfold checkedMul
  rw [if_neg h]

theorem checkedAdd_of_inI32 {a b : Int} (h : inI32 (a + b)) :
    checkedAdd a b = some (a + b) := by
  unfold checkedAdd
  rw [if_pos h]

theorem checkedAdd_of_overflow {a b : Int} (h : ¬ inI32 (a + b)) :
    checkedAdd a b = none := by
  unfold checkedAdd
  rw [if_neg h]

theorem checkedMul_eq_some {a b c : Int} (h : checkedMul a b = some c) :
    c = a * b ∧ inI32 (a * b) := by
  unfold checkedMul at h
  by_cases hc : inI32 (a * b)
  · rw [if_pos hc] at h
    exact ⟨(Option.some.inj h).symm, hc⟩
  · rw [if_neg hc] at h
    cases h

theorem checkedAdd_eq_some {a b c : Int} (h : checkedAdd a b = some c) :
    c = a + b ∧ inI32 (a + b) := by
  unfold checkedAdd at h
  by_cases hc : inI32 (a + b)
  · rw [if_pos hc] at h
    exact ⟨(Option.some.inj h).symm, hc⟩
  · rw [if_neg hc] at h
    cases h

theorem mapEntry_of_captures {path : String} {p : WorldPattern} {re : Regex}
    {entry : DirEntry} {name : String} {caps : List (Option String)}
    (hfn : entry.fileName? = some ⟨some name⟩) (hcaps : re.captures name = some caps) :
    mapEntry path p re entry = .value (computePlacement path p name caps) := by
  unfold mapEntry
  rw [hfn]
  simp only []
  rw [hcaps]

theorem computePlacement_ok_dims {path : String} {p : WorldPattern} {filename : String}
    {caps : List (Option String)} {m : WorldMap}
    (h : computePlacement path p filename caps = .ok m) :
    m.filename = filename ∧ m.map = none ∧
      m.width = some p.multiplier_x ∧ m.height = some p.multiplier_y := by
  unfold computePlacement at h
  repeat' split at h
  any_goals exact Except.noConfusion h
  injection h with h
  subst h
  exact ⟨rfl, rfl, rfl, rfl⟩

theorem computePlacement_ok_xy {path : String} {p : WorldPattern} {filename : String}
    {caps : List (Option String)} {m : WorldMap} {xs ys : String} {c1 c2 : Int}
    (h1 : capturesGet caps 1 = some xs) (hp1 : parseI32 xs = .ok c1)
    (h2 : capturesGet caps 2 = some ys) (hp2 : parseI32 ys = .ok c2)
    (h : computePlacement path p filename caps = .ok m) :
    m.x = c1 * u32AsI32 p.multiplier_x + p.offset_x ∧
      inI32 (c1 * u32AsI32 p.multiplier_x) ∧
      inI32 (c1 * u32AsI32 p.multiplier_x + p.offset_x) ∧
      m.y = c2 * u32AsI32 p.multiplier_y + p.offset_y ∧
      inI32 (c2 * u32AsI32 p.multiplier_y) ∧
      inI32 (c2 * u32AsI32 p.multiplier_y + p.offset_y) := by
  unfold computePlacement at h
  simp only [h1, hp1, h2, hp2] at h
  rcases hmx : checkedMul c1 (u32AsI32 p.multiplier_x) with _ | x0
  · simp only [hmx, Option.none_bind] at h
    exact Except.noConfusion h
  · obtain ⟨hx0, hxin⟩ := checkedMul_eq_some hmx
    simp only [hmx, Option.some_bind] at h
    rcases hax : checkedAdd x0 p.offset_x with _ | x1
    · simp only [hax] at h
      exact Except.noConfusion h
    · obtain ⟨hx1, hxin2⟩ := checkedAdd_eq_some hax
      simp only [hax] at h
      rcases hmy : checkedMul c2 (u32AsI32 p.multiplier_y) with _ | y0
      · simp only [hmy, Option.none_bind] at h
        exact Except.noConfusion h
      · obtain ⟨hy0, hyin⟩ := checkedMul_eq_some hmy
        simp only [hmy, Option.some_bind] at h
        rcases hay : checkedAdd y0 p.offset_y with _ | y1
        · simp only [hay] at h
          exact Except.noConfusion h
        · obtain ⟨hy1, hyin2⟩ := checkedAdd_eq_some hay
          simp only [hay] at h
          injection h with h
          subst h
          subst hx0 hx1 hy0 hy1
          exact ⟨rfl, hxin, hxin2, rfl, hyin, hyin2⟩

theorem mapEntry_ok_elim {path : String} {p : WorldPattern} {re : Regex}
    {entry : DirEntry} {m : WorldMap}
    (h : mapEntry path p re entry = .value (.ok m)) :
    ∃ name caps, entry.fileName? = some ⟨some name⟩ ∧ re.captures name = some caps ∧
      computePlacement path p name caps = .ok m := by
  unfold mapEntry at h
  rcases hfn : entry.fileName? with _ | os
  · rw [hfn] at h
    simp at h
  · rw [hfn] at h
    rcases os with ⟨_ | name⟩
    · simp at h
    · rcases hcaps : re.captures name with _ | caps
      · simp only [hcaps] at h
        exact PanicOr.noConfusion h
      · simp only [hcaps] at h
        injection h with h
        exact ⟨name, caps, rfl, hcaps, h⟩

theorem mapEntry_ok_dims {path : String} {p : WorldPattern} {re : Regex}
    {entry : DirEntry} {m : WorldMap}
    (h : mapEntry path p re entry = .value (.ok m)) :
    m.width = some p.multiplier_x ∧ m.height = some p.multiplier_y := by
  obtain ⟨name, caps, -, -, hcp⟩ := mapEntry_ok_elim h
  obtain ⟨-, -, hw, hh⟩ := computePlacement_ok_dims hcp
  exact ⟨hw, hh⟩

theorem pushResults_mem {acc : List WorldMap} {results : List (Except Error WorldMap)}
    {acc2 : List WorldMap} (h : pushResults acc results = .ok acc2) :
    ∀ m ∈ acc2, m ∈ acc ∨ Except.ok m ∈ results := by
  induction results generalizing acc with
  | nil =>
    unfold pushResults at h
    injection h with h
    subst h
    intro m hm
    exact Or.inl hm
  | cons r rest ih =>
    cases r with
    | error e =>
      unfold pushResults at h
      exact Except.noConfusion h
    | ok m0 =>
      unfold pushResults at h
      intro m hm
      rcases ih h m hm with hmem | hmem
      · rcases List.mem_append.mp hmem with h' | h'
        · exact Or.inl h'
        · right
          simp at h'
          subst h'
          exact List.mem_cons_self _ _
      · exact Or.inr (List.mem_cons_of_mem _ hmem)

theorem patternResults_mem {path : String} {p : WorldPattern} {re : Regex}
    {entries : List (Except IoError DirEntry)} {results : List (Except Error WorldMap)}
    (h : patternResults path p re entries = .value results) :
    ∀ r ∈ results, ∃ entry, mapEntry path p re entry = .value r := by
  induction entries generalizing results with
  | nil =>
    unfold patternResults at h
    injection h with h
    subst h
    intro r hr
    cases hr
  | cons e es ih =>
    cases e with
    | error e0 =>
      unfold patternResults at h
      exact ih h
    | ok entry =>
      unfold patternResults at h
      rcases hf : filterEntry re entry with msg | b
      · simp only [hf] at h
        exact PanicOr.noConfusion h
      · simp only [hf] at h
        cases b
        · exact ih h
        · rcases hme : mapEntry path p re entry with msg | r0
          · simp only [hme] at h
            exact PanicOr.noConfusion h
          · simp only [hme] at h
            rcases hrec : patternResults path p re es with msg | rs
            · simp only [hrec] at h
              exact PanicOr.noConfusion h
            · simp only [hrec] at h
              injection h with h
              subst h
              intro r hr
              rcases List.mem_cons.mp hr with h' | h'
              · subst h'
                exact ⟨entry, hme⟩
              · exact ih hrec r h'

theorem patternLoop_mem (env : WorldEnv) (path parentDir : String) :
    ∀ (ps : List WorldPattern) (acc maps : List WorldMap),
      patternLoop env path parentDir acc ps = .value (.ok maps) →
      ∀ m ∈ maps, m ∈ acc ∨ ∃ p ∈ ps, ∃ re entry, env.compile p.regexp = some re ∧
        mapEntry path p re entry = .value (.ok m) := by
  intro ps
  induction ps with
  | nil =>
    intro acc maps h
    unfold patternLoop at h
    injection h with h
    injection h with h
    subst h
    intro m hm
    exact Or.inl hm
  | cons p ps ih =>
    intro acc maps h
    unfold patternLoop at h
    rcases hdir : env.readDir parentDir with e | entries
    · simp only [hdir] at h
      exact absurd h (by simp)
    · simp only [hdir] at h
      rcases hcomp : env.compile p.regexp with _ | re
      · simp only [hcomp] at h
        exact PanicOr.noConfusion h
      · simp only [hcomp] at h
        rcases hres : patternResults path p re entries with msg | results
        · simp only [hres] at h
          exact PanicOr.noConfusion h
        · simp only [hres] at h
          rcases hpush : pushResults acc results with e | acc2
          · simp only [hpush] at h
            exact absurd h (by simp)
          · simp only [hpush] at h
            intro m hm
            rcases ih acc2 maps h m hm with hmem | ⟨p', hp', hrest⟩
            · rcases pushResults_mem hpush m hmem with hmem2 | hok
              · exact Or.inl hmem2
              · obtain ⟨entry, hent⟩ := patternResults_mem hres _ hok
                exact Or.inr ⟨p, List.mem_cons_self _ _, re, entry, hcomp, hent⟩
            · exact Or.inr ⟨p', List.mem_cons_of_mem _ hp', hrest⟩

theorem pushResults_firstError {results : List (Except Error WorldMap)} {e : Error}
    (h : firstError results = some e) :
    ∀ acc, pushResults acc results = .error e := by
  induction results with
  | nil => exact Option.noConfusion h
  | cons r rest ih =>
    cases r with
    | error e0 =>
      unfold firstError at h
      injection h with h
      subst h
      intro acc
      rfl
    | ok m =>
      unfold firstError at h
      intro acc
      exact ih h (acc ++ [m])

/-! ### Claim C1 -/

/-- C1 (amended): every `WorldMap` produced by pattern evaluation carries
`width = Some(multiplier_x)` and `height = Some(multiplier_y)` of the pattern
that produced it — never `None` (`world.rs` lines 213-214). -/
theorem c1_pattern_size (env : WorldEnv) (path : String) (patterns : List WorldPattern)
    (maps : List WorldMap)
    (h : parse_world_pattern env path patterns = .value (.ok maps)) :
    ∀ m ∈ maps, ∃ p ∈ patterns,
      m.width = some p.multiplier_x ∧ m.height = some p.multiplier_y := by
  unfold parse_world_pattern at h
  rcases hpar : env.parent? path with _ | parentDir
  · simp only [hpar] at h
    exact absurd h (by simp)
  · simp only [hpar] at h
    intro m hm
    rcases patternLoop_mem env path parentDir patterns [] maps h m hm with
      hmem | ⟨p, hp, re, entry, -, hent⟩
    · cases hmem
    · obtain ⟨hw, hh⟩ := mapEntry_ok_dims hent
      exact ⟨p, hp, hw, hh⟩

/-- Witness for C1 (amended) on the one-candidate directory. -/
theorem c1_witness :
    ∃ p ∈ [pat100], m12.width = some p.multiplier_x ∧ m12.height = some p.multiplier_y :=
  c1_pattern_size envA "w.world" [pat100] [m12] (by decide) m12 (by decide)

/-- C1 counterexample: the pattern-derived map for `map_1_2.tmx` has
`width = Some 100`, `height = Some 100`, not `None`. -/
theorem c1_counterexample :
    parse_world_pattern envA "w.world" [pat100] = .value (.ok [m12]) ∧
    m12.width = some 100 ∧ m12.height = some 100 ∧ m12.width ≠ none := by
  refine ⟨by decide, rfl, rfl, by decide⟩

/-! ### Claim C2 -/

/-- C2 (amended): every pattern is evaluated against every candidate — when two
patterns both match the same single candidate, the result contains one entry
per matching pattern in declaration order (the comment at `world.rs` line 131
states the results are all pushed into the same maps list), not only the first
pattern's entry. -/
theorem c2_all_patterns_contribute (env : WorldEnv) (path parentDir name : String)
    (entry : DirEntry) (p1 p2 : WorldPattern) (re1 re2 : Regex) (m1 m2 : WorldMap)
    (hpar : env.parent? path = some parentDir)
    (hdir : env.readDir parentDir = .ok [.ok entry])
    (hc1 : env.compile p1.regexp = some re1) (hc2 : env.compile p2.regexp = some re2)
    (hfn : entry.fileName? = some ⟨some name⟩)
    (ha : re1.is_match name = true) (hb : re2.is_match name = true)
    (hm1 : mapEntry path p1 re1 entry = .value (.ok m1))
    (hm2 : mapEntry path p2 re2 entry = .value (.ok m2)) :
    parse_world_pattern env path [p1, p2] = .value (.ok [m1, m2]) := by
  simp only [parse_world_pattern, hpar, patternLoop, hdir, hc1, hc2, patternResults,
    filterEntry, hfn, ha, hb, hm1, hm2, pushResults]
  rfl

/-- Witness for C2 (amended): `map_1_1.tmx` matches both declared patterns and
contributes one entry for each. -/
theorem c2_witness :
    parse_world_pattern envB "w.world" [pat100, patAlt] = .value (.ok [m11a, m11b]) :=
  c2_all_patterns_contribute envB "w.world" "w" "map_1_1.tmx" (entryOf "map_1_1.tmx")
    pat100 patAlt reMapXY reMapXY m11a m11b rfl (by decide) rfl rfl rfl
    (by decide) (by decide) (by decide) (by decide)

/-- C2 counterexample: two patterns match the single candidate `map_1_1.tmx`;
evaluation returns both entries, not only the first pattern's result `[m11a]`. -/
theorem c2_counterexample :
    parse_world_pattern envB "w.world" [pat100, patAlt] = .value (.ok [m11a, m11b]) ∧
    reMapXY.is_match "map_1_1.tmx" = true ∧
    stdCompile pat100.regexp = some reMapXY ∧
    stdCompile patAlt.regexp = some reMapXY ∧
    [m11a, m11b] ≠ [m11a] := by
  refine ⟨by decide, by decide, rfl, rfl, by decide⟩

/-! ### Claim C3 -/

/-- C3 (amended): per-candidate results are computed for every entry and
collected in input order, but `parse_world_pattern` is all-or-nothing: the
first per-candidate failure aborts the whole evaluation and is returned as the
batch's single error, so no per-input result list is produced. -/
theorem c3_first_error_aborts (env : WorldEnv) (path parentDir : String)
    (p : WorldPattern) (re : Regex) (entries : List (Except IoError DirEntry))
    (results : List (Except Error WorldMap)) (e : Error)
    (hpar : env.parent? path = some parentDir)
    (hdir : env.readDir parentDir = .ok entries)
    (hcomp : env.compile p.regexp = some re)
    (hres : patternResults path p re entries = .value results)
    (hfe : firstError results = some e) :
    parse_world_pattern env path [p] = .value (.error e) := by
  unfold parse_world_pattern
  rw [hpar]
  simp only [patternLoop, hdir, hcomp, hres, pushResults_firstError hfe]

/-- Witness for C3 (amended): the overflowing candidate comes first, the good
candidate's result is computed but the batch returns only the first error. -/
theorem c3_witness :
    parse_world_pattern envC "w.world" [pat100] =
      .value (.error (Error.ResourceLoadingError "w.world"
        (DynError.parseIntError ⟨IntErrorKind.PosOverflow⟩))) :=
  c3_first_error_aborts envC "w.world" "w" pat100 reMapXY
    (dirOf ["map_9999999999_1.tmx", "map_1_1.tmx"])
    [.error (Error.ResourceLoadingError "w.world"
        (DynError.parseIntError ⟨IntErrorKind.PosOverflow⟩)),
      .ok m11a]
    (Error.ResourceLoadingError "w.world" (DynError.parseIntError ⟨IntErrorKind.PosOverflow⟩))
    (by decide) (by decide) rfl (by decide) (by decide)

/-- C3 counterexample: with candidates `[map_9999999999_1.tmx, map_1_1.tmx]`
the first candidate's unparsable capture aborts the whole batch with a single
error — no per-input result list is returned — although the second candidate
alone evaluates successfully. -/
theorem c3_counterexample :
    parse_world_pattern envC "w.world" [pat100] =
      .value (.error (Error.ResourceLoadingError "w.world"
        (DynError.parseIntError ⟨IntErrorKind.PosOverflow⟩))) ∧
    parse_world_pattern envB "w.world" [pat100] = .value (.ok [m11a]) := by
  refine ⟨by decide, by decide⟩

/-! ### Claim C9 -/

/-- C9: a resource-loading failure is reported as `Error::ResourceLoadingError`
carrying the requested path and the boxed underlying error, and `Error::source`
returns exactly that wrapped error as the cause; in particular a failing
`read_from` in `parse_world` is wrapped this way with the requested path. -/
theorem c9_resource_error_cause (p : String) (e : DynError) (env : WorldEnv) (lm : Bool)
    (h : env.readFrom p = .error e) :
    (Error.ResourceLoadingError p e).source = some e ∧
    parse_world env p lm = .value (.error (Error.ResourceLoadingError p e)) := by
  constructor
  · rfl
  · unfold parse_world
    rw [h]

/-- Witness for C9 at a concrete denied read. -/
theorem c9_witness :
    (Error.ResourceLoadingError "w.world" (DynError.ioError ⟨"PermissionDenied"⟩)).source
        = some (DynError.ioError ⟨"PermissionDenied"⟩) ∧
    parse_world envDenied "w.world" false =
      .value (.error (Error.ResourceLoadingError "w.world"
        (DynError.ioError ⟨"PermissionDenied"⟩))) :=
  c9_resource_error_cause "w.world" (DynError.ioError ⟨"PermissionDenied"⟩) envDenied false rfl

/-! ### Claim C10 -/

/-- C10: `WorldPattern` multipliers are deserialized as `u32` but the placement
arithmetic runs in `i32` after an unchecked `as i32` cast, so a pattern whose
`multiplier_x` or `multiplier_y` exceeds `i32::MAX` has that multiplier
silently reinterpreted as a negative value before the overflow-checked
multiply: any successful placement satisfies
`x = capture1 * (multiplier_x - 2^32) + offset_x` when `multiplier_x` is above
`i32::MAX`, and `y = capture2 * (multiplier_y - 2^32) + offset_y` when
`multiplier_y` is above `i32::MAX`, with no error reporting the
reinterpretation on either axis. -/
theorem c10_unchecked_cast (path : String) (p : WorldPattern) (re : Regex)
    (entry : DirEntry) (name : String) (caps : List (Option String)) (xs ys : String)
    (c1 c2 : Int) (m : WorldMap)
    (hux : p.multiplier_x < 4294967296) (huy : p.multiplier_y < 4294967296)
    (hfn : entry.fileName? = some ⟨some name⟩) (hcaps : re.captures name = some caps)
    (h1 : capturesGet caps 1 = some xs) (hp1 : parseI32 xs = .ok c1)
    (h2 : capturesGet caps 2 = some ys) (hp2 : parseI32 ys = .ok c2)
    (hok : mapEntry path p re entry = .value (.ok m)) :
    (2147483647 < p.multiplier_x →
      u32AsI32 p.multiplier_x < 0 ∧
      u32AsI32 p.multiplier_x = (p.multiplier_x : Int) - 4294967296 ∧
      m.x = c1 * ((p.multiplier_x : Int) - 4294967296) + p.offset_x) ∧
    (2147483647 < p.multiplier_y →
      u32AsI32 p.multiplier_y < 0 ∧
      u32AsI32 p.multiplier_y = (p.multiplier_y : Int) - 4294967296 ∧
      m.y = c2 * ((p.multiplier_y : Int) - 4294967296) + p.offset_y) := by
  rw [mapEntry_of_captures hfn hcaps] at hok
  injection hok with hok
  obtain ⟨hx, -, -, hy, -, -⟩ := computePlacement_ok_xy h1 hp1 h2 hp2 hok
  constructor
  · intro hbig
    have hcast := u32AsI32_of_gt p.multiplier_x hbig
    exact ⟨by rw [hcast]; omega, hcast, by rw [hx, hcast]⟩
  · intro hbig
    have hcast := u32AsI32_of_gt p.multiplier_y hbig
    exact ⟨by rw [hcast]; omega, hcast, by rw [hy, hcast]⟩

/-- Witness for C10 with both multipliers above `i32::MAX`: `2^32 - 100` acts
as `-100` (capture 5 yields `x = -500`) and `2^32 - 7` acts as `-7` (capture 1
yields `y = -7`). -/
theorem c10_witness :
    u32AsI32 patWrap.multiplier_x < 0 ∧
    u32AsI32 patWrap.multiplier_x = (patWrap.multiplier_x : Int) - 4294967296 ∧
    mWrap.x = 5 * ((patWrap.multiplier_x : Int) - 4294967296) + patWrap.offset_x ∧
    u32AsI32 patWrap.multiplier_y < 0 ∧
    u32AsI32 patWrap.multiplier_y = (patWrap.multiplier_y : Int) - 4294967296 ∧
    mWrap.y = 1 * ((patWrap.multiplier_y : Int) - 4294967296) + patWrap.offset_y := by
  have h := c10_unchecked_cast "w.world" patWrap reMapXY (entryOf "map_5_1.tmx")
    "map_5_1.tmx" [some "map_5_1.tmx", some "5", some "1"] "5" "1" 5 1 mWrap
    (by decide) (by decide) rfl (by decide) (by decide) (by decide) (by decide) (by decide)
    (by decide)
  obtain ⟨hx1, hx2, hx3⟩ := h.1 (by decide)
  obtain ⟨hy1, hy2, hy3⟩ := h.2 (by decide)
  exact ⟨hx1, hx2, hx3, hy1, hy2, hy3⟩

/-! ### Claim C5 -/

/-- C5 (amended): for patterns whose multipliers are at most `i32::MAX`, a
candidate whose capture makes `capture * multiplier` or the subsequent
`+ offset` leave the `i32` range fails with a range error naming the
overflowing axis (`multiplierX and offsetX` vs `multiplierY and offsetY`),
and a successful placement is always the exact, unwrapped value. -/
theorem c5_overflow_named (path : String) (p : WorldPattern) (re : Regex)
    (entry : DirEntry) (name : String) (caps : List (Option String)) (xs ys : String)
    (c1 c2 : Int)
    (hmx : p.multiplier_x ≤ 2147483647) (hmy : p.multiplier_y ≤ 2147483647)
    (hfn : entry.fileName? = some ⟨some name⟩) (hcaps : re.captures name = some caps)
    (h1 : capturesGet caps 1 = some xs) (hp1 : parseI32 xs = .ok c1)
    (h2 : capturesGet caps 2 = some ys) (hp2 : parseI32 ys = .ok c2) :
    ((¬ inI32 (c1 * (p.multiplier_x : Int)) ∨
        ¬ inI32 (c1 * (p.multiplier_x : Int) + p.offset_x)) →
      mapEntry path p re entry = .value (.error (Error.ResourceLoadingError path
        (DynError.strError "Arithmetic Overflow on multiplierX and offsetX")))) ∧
    ((inI32 (c1 * (p.multiplier_x : Int)) ∧ inI32 (c1 * (p.multiplier_x : Int) + p.offset_x) ∧
      (¬ inI32 (c2 * (p.multiplier_y : Int)) ∨
        ¬ inI32 (c2 * (p.multiplier_y : Int) + p.offset_y))) →
      mapEntry path p re entry = .value (.error (Error.ResourceLoadingError path
        (DynError.strError "Arithmetic Overflow on multiplierY and offsetY")))) ∧
    (∀ m, mapEntry path p re entry = .value (.ok m) →
      m.x = c1 * (p.multiplier_x : Int) + p.offset_x ∧
      m.y = c2 * (p.multiplier_y : Int) + p.offset_y) := by
  have hcx := u32AsI32_of_le p.multiplier_x hmx
  have hcy := u32AsI32_of_le p.multiplier_y hmy
  rw [mapEntry_of_captures hfn hcaps]
  refine ⟨?_, ?_, ?_⟩
  · intro hover
    unfold computePlacement
    simp only [h1, hp1, h2, hp2, hcx, hcy]
    by_cases hc : inI32 (c1 * (p.multiplier_x : Int))
    · have hsum : ¬ inI32 (c1 * (p.multiplier_x : Int) + p.offset_x) := by
        rcases hover with hover | hover
        · exact absurd hc hover
        · exact hover
      rw [checkedMul_of_inI32 hc, Option.some_bind, checkedAdd_of_overflow hsum]
    · rw [checkedMul_of_overflow hc, Option.none_bind]
  · rintro ⟨hx1, hx2, hovery⟩
    unfold computePlacement
    simp only [h1, hp1, h2, hp2, hcx, hcy]
    rw [checkedMul_of_inI32 hx1, Option.some_bind, checkedAdd_of_inI32 hx2]
    by_cases hc : inI32 (c2 * (p.multiplier_y : Int))
    · have hsum : ¬ inI32 (c2 * (p.multiplier_y : Int) + p.offset_y) := by
        rcases hovery with hovery | hovery
        · exact absurd hc hovery
        · exact hovery
      rw [checkedMul_of_inI32 hc, Option.some_bind, checkedAdd_of_overflow hsum]
    · rw [checkedMul_of_overflow hc, Option.none_bind]
  · intro m hok
    injection hok with hok
    obtain ⟨hx, -, -, hy, -, -⟩ := computePlacement_ok_xy h1 hp1 h2 hp2 hok
    rw [hx, hy, hcx, hcy]
    exact ⟨rfl, rfl⟩

/-- Witness for C5: the spec's overflow example, capture 30000000 with
multiplier 100000, fails with the X-axis overflow error. -/
theorem c5_witness :
    mapEntry "w.world" patOvf reMapXY (entryOf "map_30000000_1.tmx") =
      .value (.error (Error.ResourceLoadingError "w.world"
        (DynError.strError "Arithmetic Overflow on multiplierX and offsetX"))) :=
  (c5_overflow_named "w.world" patOvf reMapXY (entryOf "map_30000000_1.tmx")
    "map_30000000_1.tmx" [some "map_30000000_1.tmx", some "30000000", some "1"]
    "30000000" "1" 30000000 1
    (by decide) (by decide) rfl (by decide) (by decide) (by decide) (by decide)
    (by decide)).1 (Or.inl (by decide))

/-- C5 counterexample: with `multiplier_x = u32::MAX` (above `i32::MAX`) and
capture 1, the product `1 * 4294967295` overflows the `i32` range, yet pattern
evaluation succeeds with the wrapped coordinate `x = -1` instead of failing
with a range error. -/
theorem c5_counterexample :
    parse_world_pattern envA "w.world" [patUMax] = .value (.ok [mWrapped]) ∧
    ¬ inI32 ((1 : Int) * (patUMax.multiplier_x : Int) + patUMax.offset_x) ∧
    mWrapped.x = -1 := by
  refine ⟨by decide, by decide, rfl⟩

/-! ### Claim C6 -/

/-- C6 (amended): for patterns whose multipliers are at most `i32::MAX`, a
candidate whose regex match yields decimal captures `c1`/`c2` such that the
products and sums stay in the `i32` range produces exactly the placement
`x = c1 * multiplier_x + offset_x`, `y = c2 * multiplier_y + offset_y`. -/
theorem c6_placement_formula (path : String) (p : WorldPattern) (re : Regex)
    (entry : DirEntry) (name : String) (caps : List (Option String)) (xs ys : String)
    (c1 c2 : Int)
    (hmx : p.multiplier_x ≤ 2147483647) (hmy : p.multiplier_y ≤ 2147483647)
    (hfn : entry.fileName? = some ⟨some name⟩) (hcaps : re.captures name = some caps)
    (h1 : capturesGet caps 1 = some xs) (hp1 : parseI32 xs = .ok c1)
    (h2 : capturesGet caps 2 = some ys) (hp2 : parseI32 ys = .ok c2)
    (hx1 : inI32 (c1 * (p.multiplier_x : Int)))
    (hx2 : inI32 (c1 * (p.multiplier_x : Int) + p.offset_x))
    (hy1 : inI32 (c2 * (p.multiplier_y : Int)))
    (hy2 : inI32 (c2 * (p.multiplier_y : Int) + p.offset_y)) :
    mapEntry path p re entry = .value (.ok
      { filename := name, map := none,
        x := c1 * (p.multiplier_x : Int) + p.offset_x,
        y := c2 * (p.multiplier_y : Int) + p.offset_y,
        width := some p.multiplier_x, height := some p.multiplier_y }) := by
  rw [mapEntry_of_captures hfn hcaps]
  unfold computePlacement
  simp only [h1, hp1, h2, hp2, u32AsI32_of_le p.multiplier_x hmx,
    u32AsI32_of_le p.multiplier_y hmy, checkedMul_of_inI32 hx1, Option.some_bind,
    checkedAdd_of_inI32 hx2, checkedMul_of_inI32 hy1, checkedAdd_of_inI32 hy2]

/-- Witness for C6: the spec's example, `map_2_3.tmx` under multipliers 100 and
offsets 0, yields `x = 200`, `y = 300`. -/
theorem c6_witness :
    mapEntry "w.world" pat100 reMapXY (entryOf "map_2_3.tmx") = .value (.ok
      { filename := "map_2_3.tmx", map := none, x := 200, y := 300,
        width := some 100, height := some 100 }) :=
  (c6_placement_formula "w.world" pat100 reMapXY (entryOf "map_2_3.tmx")
    "map_2_3.tmx" [some "map_2_3.tmx", some "2", some "3"] "2" "3" 2 3
    (by decide) (by decide) rfl (by decide) (by decide) (by decide) (by decide) (by decide)
    (by decide) (by decide) (by decide) (by decide)).trans (by decide)

/-- C6 counterexample: for `map_-1_2.tmx` under `map_(-?\d+)_(\d+)\.tmx` with
`multiplier_x = 2^31` and offsets 0, the mathematical placement
`x = -1 * 2^31 + 0 = i32::MIN` is in the `i32` range (no overflow in either
step), yet evaluation fails with an overflow error instead of producing that
placement, because the multiplier was first cast to `-2^31`. -/
theorem c6_counterexample :
    parse_world_pattern envNeg "w.world" [patTwo31] =
      .value (.error (Error.ResourceLoadingError "w.world"
        (DynError.strError "Arithmetic Overflow on multiplierX and offsetX"))) ∧
    parseI32 "-1" = .ok (-1) ∧
    inI32 ((-1) * (patTwo31.multiplier_x : Int)) ∧
    inI32 ((-1) * (patTwo31.multiplier_x : Int) + patTwo31.offset_x) ∧
    inI32 ((2 : Int) * (patTwo31.multiplier_y : Int)) ∧
    inI32 ((2 : Int) * (patTwo31.multiplier_y : Int) + patTwo31.offset_y) := by
  refine ⟨by decide, by decide, by decide, by decide, by decide, by decide⟩

/-! ### Claim C7 -/

theorem mapEntry_no_panic (path : String) (p : WorldPattern) (re : Regex)
    (entry : DirEntry) (name : String)
    (hfn : entry.fileName? = some ⟨some name⟩) (hm : re.is_match name = true) :
    ∃ r, mapEntry path p re entry = .value r := by
  rcases hc : re.captures name with _ | caps
  · unfold Regex.is_match at hm
    rw [hc] at hm
    simp at hm
  · exact ⟨computePlacement path p name caps, mapEntry_of_captures hfn hc⟩

theorem patternResults_no_panic (path : String) (p : WorldPattern) (re : Regex)
    (entries : List (Except IoError DirEntry))
    (hutf : ∀ d : DirEntry, Except.ok d ∈ entries → ∃ s, d.fileName? = some ⟨some s⟩) :
    ∃ rs, patternResults path p re entries = .value rs := by
  induction entries with
  | nil => exact ⟨[], rfl⟩
  | cons e es ih =>
    obtain ⟨rs, hrs⟩ := ih (fun d hd => hutf d (List.mem_cons_of_mem _ hd))
    cases e with
    | error e0 => exact ⟨rs, hrs⟩
    | ok entry =>
      obtain ⟨s, hs⟩ := hutf entry (List.mem_cons_self _ _)
      have hf : filterEntry re entry = .value (re.is_match s) := by
        unfold filterEntry
        rw [hs]
      cases hmatch : re.is_match s with
      | false =>
        refine ⟨rs, ?_⟩
        unfold patternResults
        simp only [hf, hmatch]
        exact hrs
      | true =>
        obtain ⟨r, hr⟩ := mapEntry_no_panic path p re entry s hs hmatch
        refine ⟨r :: rs, ?_⟩
        unfold patternResults
        simp only [hf, hmatch, hr, hrs]

theorem patternLoop_no_panic (env : WorldEnv) (path parentDir : String) :
    ∀ (ps : List WorldPattern) (acc : List WorldMap),
      (∀ p ∈ ps, (env.compile p.regexp).isSome = true) →
      (∀ entries, env.readDir parentDir = .ok entries →
        ∀ d : DirEntry, Except.ok d ∈ entries → ∃ s, d.fileName? = some ⟨some s⟩) →
      ∃ r, patternLoop env path parentDir acc ps = .value r := by
  intro ps
  induction ps with
  | nil =>
    intro acc _ _
    exact ⟨.ok acc, rfl⟩
  | cons p ps ih =>
    intro acc hcomp hdir
    rcases hd : env.readDir parentDir with e | entries
    · refine ⟨.error (Error.ResourceLoadingError parentDir (DynError.ioError e)), ?_⟩
      unfold patternLoop
      rw [hd]
    · have hcp : (env.compile p.regexp).isSome = true := hcomp p (List.mem_cons_self _ _)
      rcases hre : env.compile p.regexp with _ | re
      · rw [hre] at hcp
        simp at hcp
      · obtain ⟨rs, hrs⟩ := patternResults_no_panic path p re entries (hdir entries hd)
        rcases hpush : pushResults acc rs with e | acc2
        · refine ⟨.error e, ?_⟩
          unfold patternLoop
          simp only [hd, hre, hrs, hpush]
        · obtain ⟨r, hr⟩ := ih acc2 (fun q hq => hcomp q (List.mem_cons_of_mem _ hq)) hdir
          refine ⟨r, ?_⟩
          unfold patternLoop
          simp only [hd, hre, hrs, hpush]
          exact hr

theorem parse_world_pattern_no_panic (env : WorldEnv) (path : String)
    (patterns : List WorldPattern) (h : NoPanicInputs env path patterns) :
    ∃ r, parse_world_pattern env path patterns = .value r := by
  obtain ⟨hcomp, hdir⟩ := h
  unfold parse_world_pattern
  rcases hpar : env.parent? path with _ | parentDir
  · exact ⟨.error (Error.ResourceLoadingError path (DynError.ioError ⟨"NotFound"⟩)), rfl⟩
  · exact patternLoop_no_panic env path parentDir patterns [] hcomp (hdir parentDir hpar)

/-- C7 (amended): every fallible step returns a result value — for every input
whose pattern regexes all compile and whose directory entries have valid UTF-8
file names, `parse_world_pattern` and `parse_world` terminate with an `Ok` or
`Err` value; without those provisos the code panics on `unwrap` (see the
counterexample) rather than returning an error. -/
theorem c7_no_panic_under_valid_inputs (env : WorldEnv) (path : String)
    (patterns : List WorldPattern) (load_maps : Bool)
    (h : NoPanicInputs env path patterns)
    (hw : ∀ s d, env.fromJsonWorld s = .ok d →
      ∀ ps, d.patterns = some ps → NoPanicInputs env path ps) :
    (∃ r, parse_world_pattern env path patterns = .value r) ∧
    (∃ r, parse_world env path load_maps = .value r) := by
  refine ⟨parse_world_pattern_no_panic env path patterns h, ?_⟩
  unfold parse_world
  rcases h1 : env.readFrom path with e | u
  · exact ⟨.error (Error.ResourceLoadingError path e), rfl⟩
  · rcases h2 : env.readToString path with e | ws
    · exact ⟨.error (Error.ResourceLoadingError path (DynError.ioError e)), rfl⟩
    · rcases h3 : env.fromJsonWorld ws with e | d
      · refine ⟨.error (Error.JsonDecodingError e), ?_⟩
        simp only [h3]
      · rcases h4 : d.toWorld.patterns with _ | pats
        · refine ⟨loadStep env path load_maps d.toWorld, ?_⟩
          simp only [h3, h4]
        · have hps : d.patterns = some pats := h4
          obtain ⟨r, hr⟩ := parse_world_pattern_no_panic env path pats (hw ws d h3 pats hps)
          cases r with
          | error e =>
            refine ⟨.error e, ?_⟩
            simp only [h3, h4, hr]
          | ok maps =>
            refine ⟨loadStep env path load_maps { d.toWorld with maps := some maps }, ?_⟩
            simp only [h3, h4, hr]

/-- Witness for C7 (amended) on a pattern-free input with no parent directory. -/
theorem c7_witness :
    (∃ r, parse_world_pattern envNoParent "w.world" [] = .value r) ∧
    (∃ r, parse_world envNoParent "w.world" false = .value r) :=
  c7_no_panic_under_valid_inputs envNoParent "w.world" [] false
    ⟨fun p hp => absurd hp (List.not_mem_nil p),
     fun _ hpd => Option.noConfusion hpd⟩
    (fun _ _ hd => Except.noConfusion hd)

/-- C7 counterexample: a syntactically invalid regexp makes
`parse_world_pattern` panic on `Regex::new(..).unwrap()` (`world.rs` line 138),
and a directory entry whose file name is not valid UTF-8 makes it panic on
`to_str().unwrap()` (`world.rs` line 141) — neither input yields an `Ok`/`Err`
value. -/
theorem c7_counterexample :
    parse_world_pattern envBadRegex "w.world" [pat100] =
      .panicked "called Result::unwrap() on an Err value" ∧
    parse_world_pattern envBadName "w.world" [pat100] =
      .panicked "called Option::unwrap() on a None value" := by
  refine ⟨by decide, by decide⟩

/-! ### Claim C4 -/

theorem loadStep_source (env : WorldEnv) (wp : String) (lm : Bool) (w w' : World)
    (h : loadStep env wp lm w = .ok w') : w'.source = w.source := by
  unfold loadStep at h
  cases lm with
  | false =>
    simp only [Bool.false_eq_true, if_false] at h
    injection h with h
    subst h
    rfl
  | true =>
    simp only [if_true] at h
    rcases hm : w.maps with _ | ms
    · simp only [hm] at h
      injection h with h
      subst h
      rfl
    · simp only [hm] at h
      rcases hlm : loadMaps env wp ms with e | ms2
      · simp only [hlm] at h
        exact Except.noConfusion h
      · simp only [hlm] at h
        injection h with h
        subst h
        rfl

/-- C4: the `source` field of every `World` successfully returned by
`parse_world` is the serde-skip default (the empty path) — `parse_world` never
assigns the requested load path to it, contradicting the field's documented
meaning whenever the load path is non-empty. -/
theorem c4_source_never_set (env : WorldEnv) (world_path : String) (load_maps : Bool)
    (w : World) (h : parse_world env world_path load_maps = .value (.ok w)) :
    w.source = "" := by
  unfold parse_world at h
  rcases h1 : env.readFrom world_path with e | u
  · simp only [h1] at h
    exact absurd h (by simp)
  · simp only [h1] at h
    rcases h2 : env.readToString world_path with e | ws
    · simp only [h2] at h
      exact absurd h (by simp)
    · simp only [h2] at h
      rcases h3 : env.fromJsonWorld ws with e | d
      · simp only [h3] at h
        exact absurd h (by simp)
      · simp only [h3] at h
        rcases h4 : d.toWorld.patterns with _ | pats
        · simp only [h4] at h
          injection h with h
          rw [loadStep_source _ _ _ _ _ h]
          rfl
        · simp only [h4] at h
          rcases h5 : parse_world_pattern env world_path pats with msg | r
          · simp only [h5] at h
            exact PanicOr.noConfusion h
          · cases r with
            | error e =>
              simp only [h5] at h
              exact absurd h (by simp)
            | ok maps =>
              simp only [h5] at h
              injection h with h
              rw [loadStep_source _ _ _ _ _ h]
              rfl

/-- Witness for C4: a successful concrete parse returns `source = ""` although
the world was loaded from `"maps/world.world"`. -/
theorem c4_witness : (⟨"", none, none, none⟩ : World).source = "" :=
  c4_source_never_set envJsonEmpty "maps/world.world" false ⟨"", none, none, none⟩ (by decide)

/-! ### Claim C8 -/

/-- C8 (amended): with `load_maps = false`, when the decoded descriptor holds
an explicit maps list and no patterns list, `parse_world` returns exactly the
deserialized entries (the skipped `map` field defaulted to `None`); when a
patterns list is also present, the explicit maps are discarded and replaced by
the pattern-evaluation results (see the counterexample). -/
theorem c8_explicit_maps (env : WorldEnv) (path s : String) (d : WorldDescriptor)
    (ms : List WorldMapDesc)
    (hr : env.readFrom path = .ok ()) (hs : env.readToString path = .ok s)
    (hj : env.fromJsonWorld s = .ok d) (hm : d.maps = some ms) (hp : d.patterns = none) :
    parse_world env path false = .value (.ok
      { source := "", maps := some (ms.map WorldMapDesc.toWorldMap),
        patterns := none, world_type := d.world_type }) := by
  unfold parse_world
  simp only [hr, hs, hj]
  have h4 : d.toWorld.patterns = none := hp
  simp only [h4, loadStep]
  unfold WorldDescriptor.toWorld
  rw [hm, hp]
  rfl

/-- Witness for C8 (amended): a maps-only descriptor is returned unchanged. -/
theorem c8_witness :
    parse_world envMapsOnly "w.world" false = .value (.ok
      { source := "", maps := some ([mdExp].map WorldMapDesc.toWorldMap),
        patterns := none, world_type := descMapsOnly.world_type }) :=
  c8_explicit_maps envMapsOnly "w.world" "m" descMapsOnly [mdExp]
    rfl rfl (by decide) rfl rfl

/-- C8 counterexample: the descriptor holds the explicit maps list `[mdExp]`
and also a patterns list; `parse_world` discards the explicit entry and returns
the pattern-derived maps instead of the deserialized list. -/
theorem c8_counterexample :
    descBoth.maps = some [mdExp] ∧
    parse_world envBoth "w.world" false = .value (.ok
      { source := "", maps := some [m12], patterns := some [pat100],
        world_type := none }) ∧
    ([m12] : List WorldMap) ≠ [mdExp.toWorldMap] := by
  refine ⟨rfl, by decide, by decide⟩

end Tiled
